import Mathlib

/-!
Shallow embedding of `messaging.py` from the firebase-quickstart-python
repository (the server-side FCM sample).  Python dictionaries are modelled
as ordered association lists inside a small JSON value type, since the
script only ever builds string/number/dict values; `None` (from absent
argparse options) is modelled by `Json.null`.  Side effects (stdout prints,
the HTTP POST, the call to the credential resolver) are modelled as an
explicit event trace, and uncaught Python exceptions as `Except.error`.
-/

/-- JSON-serializable values the script manipulates. -/
inductive Json where
  | null : Json
  | str : String → Json
  | num : Int → Json
  | obj : List (String × Json) → Json

/-- Model of an `argparse` option: `None` for an absent option, otherwise a string. -/
def optJson : Option String → Json
  | none => Json.null
  | some s => Json.str s

/-- Python truthiness of an optional string: `None` and `""` are falsy. -/
def truthy : Option String → Bool
  | none => false
  | some s => !s.isEmpty

/-- Low hex digit characters, as produced by Python's json encoder. -/
def hexDigit (n : Nat) : Char :=
  if n < 10 then Char.ofNat (48 + n) else Char.ofNat (87 + n % 16)

/-- Four-digit lowercase hex rendering used in `\uXXXX` escapes. -/
def hex4 (n : Nat) : String :=
  String.mk [hexDigit (n / 4096 % 16), hexDigit (n / 256 % 16),
             hexDigit (n / 16 % 16), hexDigit (n % 16)]

/-- Escape one character the way `json.dumps` (with the default
`ensure_ascii=True`) does: short escapes for the common controls, `\uXXXX`
(with surrogate pairs beyond the BMP) for anything outside `0x20..0x7e`. -/
def escapeChar (c : Char) : String :=
  if c = '"' then "\\\""
  else if c = '\\' then "\\\\"
  else if c = '\n' then "\\n"
  else if c = '\t' then "\\t"
  else if c = '\r' then "\\r"
  else if c = '\x08' then "\\b"
  else if c = '\x0c' then "\\f"
  else if c.toNat < 32 || c.toNat > 126 then
    if c.toNat < 65536 then "\\u" ++ hex4 c.toNat
    else
      "\\u" ++ hex4 (55296 + (c.toNat - 65536) / 1024) ++
      "\\u" ++ hex4 (56320 + (c.toNat - 65536) % 1024)
  else String.singleton c

/-- Escape a whole string as `json.dumps` renders string contents. -/
def escapeString (s : String) : String :=
  String.join (s.data.map escapeChar)

/-- A JSON string literal: quotes around the escaped contents. -/
def jsonQuote (s : String) : String :=
  "\"" ++ escapeString s ++ "\""

/-- A run of `n` spaces, for the pretty printer's indentation. -/
def spaces (n : Nat) : String :=
  String.mk (List.replicate n ' ')

/-- Indentation prefix of one object item: empty in compact mode. -/
def spacesIf : Option Nat → Nat → String
  | none, _ => ""
  | some _, cur => spaces cur

/-- The separator `json.dumps` puts between object items: `", "` in compact
mode, a comma plus newline when an indent was requested. -/
def itemSep : Option Nat → String
  | none => ", "
  | some _ => ",\n"

mutual
/-- Rendering of `json.dumps(value, indent=ind)` where `ind = none` is the compact
default (separators `", "` and `": "`) and `ind = some n` pretty-prints
with `n`-space indentation; `cur` is the current indentation level. -/
def dumpsVal : Option Nat → Nat → Json → String
  | _, _, Json.null => "null"
  | _, _, Json.str s => jsonQuote s
  | _, _, Json.num n => toString n
  | _, _, Json.obj [] => "\x7b\x7d"
  | none, cur, Json.obj (kv :: kvs) =>
      "\x7b" ++ dumpsItems none cur (kv :: kvs) ++ "\x7d"
  | some n, cur, Json.obj (kv :: kvs) =>
      "\x7b\n" ++ dumpsItems (some n) (cur + n) (kv :: kvs) ++ "\n" ++
      spaces cur ++ "\x7d"

/-- The comma-separated rendering of an object's items at level `cur`. -/
def dumpsItems : Option Nat → Nat → List (String × Json) → String
  | _, _, [] => ""
  | ind, cur, [(k, v)] =>
      spacesIf ind cur ++ jsonQuote k ++ ": " ++ dumpsVal ind cur v
  | ind, cur, (k, v) :: kv :: kvs =>
      spacesIf ind cur ++ jsonQuote k ++ ": " ++ dumpsVal ind cur v ++
      itemSep ind ++ dumpsItems ind cur (kv :: kvs)
end

/-- Compact `json.dumps(j)` with default settings, as used for the POST body. -/
def json_dumps (j : Json) : String := dumpsVal none 0 j

/-- Pretty `json.dumps(j, indent=2)`, as used when printing the request body. -/
def json_dumps_indent2 (j : Json) : String := dumpsVal (some 2) 0 j

example : json_dumps (Json.obj [("to", Json.str "T"),
    ("data", Json.obj [("a", Json.num 1)])]) =
    "\x7b\"to\": \"T\", \"data\": \x7b\"a\": 1\x7d\x7d" := by rfl

example : json_dumps_indent2 (Json.obj [("to", Json.str "T"),
    ("data", Json.obj [("a", Json.num 1)])]) =
    "\x7b\n  \"to\": \"T\",\n  \"data\": \x7b\n    \"a\": 1\n  \x7d\n\x7d" := by rfl

/-- Python dict assignment `d[k] = v`: an existing key keeps its position,
a new key is appended at the end (insertion order). -/
def setKey (kvs : List (String × Json)) (k : String) (v : Json) :
    List (String × Json) :=
  match kvs with
  | [] => [(k, v)]
  | (k', v') :: rest =>
      if k' = k then (k, v) :: rest else (k', v') :: setKey rest k v

/-- Uncaught Python exceptions reachable in `messaging.py`: a `KeyError`
from dict subscription, and the credential failures (file-not-found,
malformed key file, token-exchange failure) that `_get_access_token` can
propagate from the google-auth library. -/
inductive Error where
  | keyError : String → Error
  | credError : String → Error
deriving DecidableEq

/-- Module-level constants of `messaging.py`. -/
def PROJECT_ID : String := "<YOUR-PROJECT-ID>"

def BASE_URL : String := "https://fcm.googleapis.com"

def FCM_ENDPOINT : String := "v1/projects/" ++ PROJECT_ID ++ "/messages:send"

/-- Initial value of the module-level global `FCM_URL` (reassigned to
`FCM_LEGACY_URL` inside `_send_fcm_message` when a legacy key is given;
each process invocation performs a single send, so the dispatcher is
modelled as reading this initial value in the non-legacy branch). -/
def FCM_URL : String := BASE_URL ++ "/" ++ FCM_ENDPOINT

def FCM_LEGACY_URL : String := BASE_URL ++ "/fcm/send"

/-- The outgoing HTTP POST issued by `requests.post(FCM_URL,
data=json.dumps(fcm_message), headers=headers)`: `body` is the message
dict, serialized on the wire as `json_dumps body`. -/
structure HttpRequest where
  url : String
  authorization : String
  contentType : String
  body : Json

/-- The serialized request payload, `json.dumps(fcm_message)`. -/
def HttpRequest.data (r : HttpRequest) : String := json_dumps r.body

/-- The part of a `requests` response the script inspects. -/
structure HttpResponse where
  status_code : Nat
  text : String

/-- The repr of a `requests` response object, as `print(resp)` renders it. -/
def respRepr (r : HttpResponse) : String :=
  "<Response [" ++ toString r.status_code ++ "]>"

/-- Observable effects of one invocation, in order: a call to
`_get_access_token` (the credential resolver), the HTTP POST, and lines
printed to standard output. -/
inductive Event where
  | getAccessToken : Event
  | httpPost : HttpRequest → Event
  | print : String → Event

/-- Embedding of `_build_common_message(token, fcmv1)`: the fixed notification object
wrapped in the v1 shape when `fcmv1` is truthy and in the legacy shape
otherwise.  `token` is `args.token`, i.e. `None` or a string. -/
def _build_common_message (token : Option String) (fcmv1 : Bool) : Json :=
  let notification := Json.obj [
    ("title", Json.str "FCM Notification"),
    ("body", Json.str "Notification from FCM")]
  if fcmv1 then
    Json.obj [("message", Json.obj [
      ("token", optJson token),
      ("notification", notification)])]
  else
    Json.obj [("to", optJson token), ("data", notification)]

/-- Embedding of `_build_override_message(token, use_fcmv1)`: builds the common message,
then executes `fcm_message['message']['android'] = android_override` and
`fcm_message['message']['apns'] = apns_override`.  Each subscription of a
missing key raises a `KeyError`, modelled as `Except.error`. -/
def _build_override_message (token : Option String) (use_fcmv1 : Bool) :
    Except Error Json :=
  let fcm_message := _build_common_message token use_fcmv1
  let apns_override := Json.obj [
    ("payload", Json.obj [("aps", Json.obj [("badge", Json.num 1)])]),
    ("headers", Json.obj [("apns-priority", Json.str "10")])]
  let android_override := Json.obj [
    ("notification", Json.obj [
      ("click_action", Json.str "android.intent.action.MAIN")])]
  match fcm_message with
  | Json.obj kvs =>
      match kvs.lookup "message" with
      | some (Json.obj inner) =>
          let inner := setKey inner "android" android_override
          let inner := setKey inner "apns" apns_override
          Except.ok (Json.obj (setKey kvs "message" (Json.obj inner)))
      | some _ => Except.error (Error.keyError "message")
      | none => Except.error (Error.keyError "message")
  | _ => Except.error (Error.keyError "message")

/-- The tail of `_send_fcm_message` after the auth header is settled:
build the headers, POST the serialized message, and print the outcome by
status code.  `pre` are the events already emitted while resolving auth. -/
def sendPost (fcm_message : Json) (auth : String) (url : String)
    (post : HttpRequest → HttpResponse) (pre : List Event) :
    List Event × Except Error Unit :=
  let req : HttpRequest := {
    url := url,
    authorization := auth,
    contentType := "application/json; UTF-8",
    body := fcm_message }
  let resp := post req
  let outs :=
    if resp.status_code = 200 then
      [Event.print "Message sent to Firebase for delivery, response:",
       Event.print resp.text]
    else
      [Event.print "Unable to send message to Firebase",
       Event.print (respRepr resp),
       Event.print resp.text]
  (pre ++ Event.httpPost req :: outs, Except.ok ())

/-- Embedding of `_send_fcm_message(fcm_message, token)`.  `token` is `args.use_http`
(the legacy key carrier).  If it is truthy the auth header is
`"key=" + token` and the global `FCM_URL` is reassigned to
`FCM_LEGACY_URL`; otherwise `_get_access_token()` is called — modelled by
the `resolve` oracle, since its body is entirely google-auth library work
on the local key file and the network — and a `Bearer` header is used with
the unchanged v1 URL.  A credential exception propagates uncaught. -/
def _send_fcm_message (fcm_message : Json) (token : Option String)
    (resolve : Except Error String) (post : HttpRequest → HttpResponse) :
    List Event × Except Error Unit :=
  if truthy token then
    sendPost fcm_message ("key=" ++ token.getD "") FCM_LEGACY_URL post []
  else
    match resolve with
    | Except.error e => ([Event.getAccessToken], Except.error e)
    | Except.ok t =>
        sendPost fcm_message ("Bearer " ++ t) FCM_URL post
          [Event.getAccessToken]

/-- The usage text printed for an unrecognized `--message` value. -/
def usageText : String :=
  "Invalid command. Please use one of the following commands:\n" ++
  "python messaging.py --message=common-message\n" ++
  "python messaging.py --message=override-message"

/-- The parsed CLI options (`argparse` defaults each to `None`). -/
structure Args where
  message : Option String
  use_http : Option String
  token : Option String

namespace Messaging

/-- Embedding of `main()`: dispatch on `--message`, build, print the header line and the
2-space-indented body, then send.  `use_fcmv1 = not bool(args.use_http)`.
The result is the stream of observable events plus either normal return or
the uncaught exception that terminated the process. -/
def main (args : Args) (resolve : Except Error String)
    (post : HttpRequest → HttpResponse) : List Event × Except Error Unit :=
  let use_fcmv1 := !truthy args.use_http
  if args.message = some "common-message" then
    let common_message := _build_common_message args.token use_fcmv1
    let sent := _send_fcm_message common_message args.use_http resolve post
    (Event.print "FCM request body for message using common notification object:" ::
     Event.print (json_dumps_indent2 common_message) :: sent.1, sent.2)
  else if args.message = some "override-message" then
    match _build_override_message args.token use_fcmv1 with
    | Except.error e => ([], Except.error e)
    | Except.ok override_message =>
        let sent := _send_fcm_message override_message args.use_http resolve post
        (Event.print "FCM request body for override message:" ::
         Event.print (json_dumps_indent2 override_message) :: sent.1, sent.2)
  else
    ([Event.print usageText], Except.ok ())

end Messaging

/-- The HTTP requests among a trace's events, in order. -/
def postsOf (tr : List Event) : List HttpRequest :=
  tr.filterMap fun e =>
    match e with
    | Event.httpPost r => some r
    | _ => none

/-- The fixed notification payload shared by both shapes. -/
def notificationJson : Json :=
  Json.obj [("title", Json.str "FCM Notification"),
            ("body", Json.str "Notification from FCM")]

example : _build_common_message (some "news") true =
    Json.obj [("message", Json.obj [("token", Json.str "news"),
      ("notification", notificationJson)])] := rfl

example : _build_override_message (some "news") false =
    Except.error (Error.keyError "message") := rfl

/-- C1: for every target token `T`, `_build_common_message(T, true)` is
exactly the v1 shape and `_build_common_message(T, false)` exactly the
legacy shape, with the fixed title/body pair and no other keys. -/
theorem build_common_message_shapes (T : String) :
    _build_common_message (some T) true =
      Json.obj [("message", Json.obj [
        ("token", Json.str T),
        ("notification", Json.obj [
          ("title", Json.str "FCM Notification"),
          ("body", Json.str "Notification from FCM")])])] ∧
    _build_common_message (some T) false =
      Json.obj [
        ("to", Json.str T),
        ("data", Json.obj [
          ("title", Json.str "FCM Notification"),
          ("body", Json.str "Notification from FCM")])] :=
  ⟨rfl, rfl⟩

/-- C2: for every target token `T`, `_build_override_message(T, true)` is
the v1 common shape with exactly the `android` and `apns` blocks appended
under `message`, everything else unchanged. -/
theorem build_override_message_shape (T : String) :
    _build_override_message (some T) true =
      Except.ok (Json.obj [("message", Json.obj [
        ("token", Json.str T),
        ("notification", Json.obj [
          ("title", Json.str "FCM Notification"),
          ("body", Json.str "Notification from FCM")]),
        ("android", Json.obj [
          ("notification", Json.obj [
            ("click_action", Json.str "android.intent.action.MAIN")])]),
        ("apns", Json.obj [
          ("payload", Json.obj [("aps", Json.obj [("badge", Json.num 1)])]),
          ("headers", Json.obj [("apns-priority", Json.str "10")])])])]) :=
  rfl

/-- C10: the builders are embedded as total pure functions of their
arguments alone (they take no world, state, or trace parameter, perform no
events, and cannot raise except for the `KeyError` value of the override
builder), so purity and determinism hold by construction: two calls with
identical inputs return structurally identical results. -/
theorem builders_deterministic (T T' : Option String) (b b' : Bool)
    (hT : T = T') (hb : b = b') :
    _build_common_message T b = _build_common_message T' b' ∧
    _build_override_message T true = _build_override_message T' true := by
  subst hT; subst hb; exact ⟨rfl, rfl⟩

/-- A non-empty optional string is truthy. -/
lemma truthy_some {K : String} (hK : K ≠ "") : truthy (some K) = true := by
  simp [truthy, Bool.eq_false_iff, String.isEmpty_iff, hK]

/-- Every HTTP POST the dispatcher issues carries the message it was given
as its body. -/
lemma send_post_body (M : Json) (token : Option String)
    (resolve : Except Error String) (post : HttpRequest → HttpResponse)
    (req : HttpRequest)
    (h : Event.httpPost req ∈ (_send_fcm_message M token resolve post).1) :
    req.body = M := by
  simp only [_send_fcm_message, sendPost] at h
  split at h
  · simp at h
    rcases h with h | h
    · simp [h]
    · split at h <;> simp at h
  · split at h
    · simp at h
    · simp at h
      rcases h with h | h
      · simp [h]
      · split at h <;> simp at h

/-- C3: with a truthy legacy key `K`, the dispatcher POSTs exactly once,
to the legacy endpoint, with header `Authorization: key=K`, and never
calls the credential resolver `_get_access_token`. -/
theorem send_legacy_key (M : Json) (K : String)
    (resolve : Except Error String) (post : HttpRequest → HttpResponse)
    (hK : K ≠ "") :
    postsOf (_send_fcm_message M (some K) resolve post).1 =
      [{ url := FCM_LEGACY_URL, authorization := "key=" ++ K,
         contentType := "application/json; UTF-8", body := M }] ∧
    Event.getAccessToken ∉ (_send_fcm_message M (some K) resolve post).1 ∧
    FCM_LEGACY_URL = "https://fcm.googleapis.com/fcm/send" := by
  have ht := truthy_some hK
  refine ⟨?_, ?_, rfl⟩ <;>
  · simp only [_send_fcm_message, sendPost, ht, if_true]
    split <;> simp [postsOf]

/-- Witness for C3 at the spec's stubbed key. -/
theorem send_legacy_key_witness :
    ("ABC123" : String) ≠ "" ∧
    (postsOf (_send_fcm_message (Json.obj []) (some "ABC123")
        (Except.error (Error.credError "no file"))
        (fun _ => { status_code := 200, text := "ok" })).1 =
      [{ url := FCM_LEGACY_URL, authorization := "key=" ++ "ABC123",
         contentType := "application/json; UTF-8", body := Json.obj [] }] ∧
     Event.getAccessToken ∉ (_send_fcm_message (Json.obj []) (some "ABC123")
        (Except.error (Error.credError "no file"))
        (fun _ => { status_code := 200, text := "ok" })).1 ∧
     FCM_LEGACY_URL = "https://fcm.googleapis.com/fcm/send") :=
  ⟨by decide, send_legacy_key _ _ _ _ (by decide)⟩

/-- C4: with no legacy key (a falsy token argument), the dispatcher calls
`_get_access_token` and POSTs once to the v1 per-project endpoint with
header `Authorization: Bearer <resolved token>`. -/
theorem send_v1_bearer (M : Json) (token : Option String) (t : String)
    (post : HttpRequest → HttpResponse) (htk : truthy token = false) :
    Event.getAccessToken ∈ (_send_fcm_message M token (Except.ok t) post).1 ∧
    postsOf (_send_fcm_message M token (Except.ok t) post).1 =
      [{ url := FCM_URL, authorization := "Bearer " ++ t,
         contentType := "application/json; UTF-8", body := M }] ∧
    FCM_URL = "https://fcm.googleapis.com/v1/projects/" ++ PROJECT_ID ++
      "/messages:send" := by
  have hc : ¬ truthy token = true := by simp [htk]
  refine ⟨?_, ?_, rfl⟩ <;>
  · simp only [_send_fcm_message, sendPost, if_neg hc]
    split <;> simp [postsOf]

/-- Witness for C4 with no key supplied at all. -/
theorem send_v1_bearer_witness :
    truthy none = false ∧
    (Event.getAccessToken ∈ (_send_fcm_message (Json.obj []) none
        (Except.ok "resolved-token")
        (fun _ => { status_code := 200, text := "ok" })).1 ∧
     postsOf (_send_fcm_message (Json.obj []) none
        (Except.ok "resolved-token")
        (fun _ => { status_code := 200, text := "ok" })).1 =
      [{ url := FCM_URL, authorization := "Bearer " ++ "resolved-token",
         contentType := "application/json; UTF-8", body := Json.obj [] }] ∧
     FCM_URL = "https://fcm.googleapis.com/v1/projects/" ++ PROJECT_ID ++
       "/messages:send") :=
  ⟨rfl, send_v1_bearer _ _ _ _ rfl⟩

/-- C6: whenever the POST is reached (legacy key, or successful credential
resolution), the dispatcher issues exactly one request, prints the success
lines on status 200 and the failure lines (response repr and body)
otherwise, and returns normally in both cases. -/
theorem send_outcomes (M : Json) (token : Option String)
    (resolve : Except Error String) (post : HttpRequest → HttpResponse)
    (h : truthy token = true ∨ ∃ t, resolve = Except.ok t) :
    ∃ pre req,
      (_send_fcm_message M token resolve post).1 =
        pre ++ Event.httpPost req ::
          (if (post req).status_code = 200 then
            [Event.print "Message sent to Firebase for delivery, response:",
             Event.print (post req).text]
          else
            [Event.print "Unable to send message to Firebase",
             Event.print (respRepr (post req)),
             Event.print (post req).text]) ∧
      postsOf pre = [] ∧
      (_send_fcm_message M token resolve post).2 = Except.ok () := by
  cases ht : truthy token with
  | true =>
      refine ⟨[], (⟨FCM_LEGACY_URL, "key=" ++ token.getD "",
        "application/json; UTF-8", M⟩ : HttpRequest), ?_, rfl, ?_⟩ <;>
      simp [_send_fcm_message, sendPost, ht]
  | false =>
      rcases h with h | ⟨t, ht'⟩
      · rw [ht] at h; simp at h
      · subst ht'
        refine ⟨[Event.getAccessToken], (⟨FCM_URL, "Bearer " ++ t,
          "application/json; UTF-8", M⟩ : HttpRequest), ?_, rfl, ?_⟩ <;>
        simp [_send_fcm_message, sendPost, ht]

/-- Witness for C6 on a failing (non-200) response. -/
theorem send_outcomes_witness :
    (truthy (some "k") = true ∨
      ∃ t, (Except.error (Error.credError "e") : Except Error String) =
        Except.ok t) ∧
    (∃ pre req,
      (_send_fcm_message Json.null (some "k")
          (Except.error (Error.credError "e"))
          (fun _ => { status_code := 500, text := "err" })).1 =
        pre ++ Event.httpPost req ::
          (if ((fun _ => ({ status_code := 500, text := "err" } :
              HttpResponse)) req).status_code = 200 then
            [Event.print "Message sent to Firebase for delivery, response:",
             Event.print ((fun _ => ({ status_code := 500, text := "err" } :
               HttpResponse)) req).text]
          else
            [Event.print "Unable to send message to Firebase",
             Event.print (respRepr ((fun _ =>
               ({ status_code := 500, text := "err" } : HttpResponse)) req)),
             Event.print ((fun _ => ({ status_code := 500, text := "err" } :
               HttpResponse)) req).text]) ∧
      postsOf pre = [] ∧
      (_send_fcm_message Json.null (some "k")
          (Except.error (Error.credError "e"))
          (fun _ => { status_code := 500, text := "err" })).2 =
        Except.ok ()) :=
  ⟨Or.inl (truthy_some (by decide)),
   send_outcomes _ _ _ _ (Or.inl (truthy_some (by decide)))⟩

/-- C7: with no legacy key, a credential-resolution failure propagates
uncaught out of `_send_fcm_message` (and out of `main`): no POST happens,
nothing is recovered or retried, and the run ends in that error. -/
theorem credential_error_propagates (M : Json) (use_http tk : Option String)
    (post : HttpRequest → HttpResponse) (e : Error)
    (h : truthy use_http = false) :
    _send_fcm_message M use_http (Except.error e) post =
      ([Event.getAccessToken], Except.error e) ∧
    Messaging.main ⟨some "common-message", use_http, tk⟩
        (Except.error e) post =
      ([Event.print "FCM request body for message using common notification object:",
        Event.print (json_dumps_indent2 (_build_common_message tk true)),
        Event.getAccessToken], Except.error e) := by
  have hc : ¬ truthy use_http = true := by simp [h]
  constructor
  · simp [_send_fcm_message, if_neg hc]
  · simp [Messaging.main, _send_fcm_message, if_neg hc, h]

/-- Witness for C7: no key supplied, missing credential file. -/
theorem credential_error_propagates_witness :
    truthy none = false ∧
    (_send_fcm_message Json.null none
        (Except.error (Error.credError "service-account.json not found"))
        (fun _ => { status_code := 200, text := "ok" }) =
      ([Event.getAccessToken],
       Except.error (Error.credError "service-account.json not found")) ∧
     Messaging.main ⟨some "common-message", none, none⟩
        (Except.error (Error.credError "service-account.json not found"))
        (fun _ => { status_code := 200, text := "ok" }) =
      ([Event.print "FCM request body for message using common notification object:",
        Event.print (json_dumps_indent2 (_build_common_message none true)),
        Event.getAccessToken],
       Except.error (Error.credError "service-account.json not found"))) :=
  ⟨rfl, credential_error_propagates _ _ _ _ _ rfl⟩

/-- C5: the override builder on the legacy shape hits a missing `message`
key (`KeyError`), and `main` with `--message=override-message` and a
truthy `--use-http` dies on it before printing anything or sending. -/
theorem override_legacy_keyerror (T u : Option String)
    (resolve : Except Error String) (post : HttpRequest → HttpResponse)
    (hu : truthy u = true) :
    _build_override_message T false = Except.error (Error.keyError "message") ∧
    Messaging.main ⟨some "override-message", u, T⟩ resolve post =
      ([], Except.error (Error.keyError "message")) := by
  have hb : _build_override_message T false =
      Except.error (Error.keyError "message") := rfl
  refine ⟨hb, ?_⟩
  simp [Messaging.main, hu, hb]

/-- Witness for C5: `--use-http=x` makes the override build crash. -/
theorem override_legacy_keyerror_witness :
    truthy (some "x") = true ∧
    (_build_override_message none false =
        Except.error (Error.keyError "message") ∧
     Messaging.main ⟨some "override-message", some "x", none⟩
        (Except.ok "t") (fun _ => { status_code := 200, text := "ok" }) =
      ([], Except.error (Error.keyError "message"))) :=
  ⟨truthy_some (by decide),
   override_legacy_keyerror _ _ _ _ (truthy_some (by decide))⟩

/-- C8: any other `--message` value (including none) makes `main` print
the usage text only: no message built, no resolver call, no POST, and a
normal return. -/
theorem unrecognized_message_usage (m u tk : Option String)
    (resolve : Except Error String) (post : HttpRequest → HttpResponse)
    (h1 : m ≠ some "common-message") (h2 : m ≠ some "override-message") :
    Messaging.main ⟨m, u, tk⟩ resolve post =
      ([Event.print usageText], Except.ok ()) := by
  simp [Messaging.main, h1, h2]

/-- Witness for C8 with `--message` absent. -/
theorem unrecognized_message_usage_witness :
    (none : Option String) ≠ some "common-message" ∧
    (none : Option String) ≠ some "override-message" ∧
    Messaging.main ⟨none, none, none⟩ (Except.ok "t")
        (fun _ => { status_code := 200, text := "ok" }) =
      ([Event.print usageText], Except.ok ()) :=
  ⟨by decide, by decide,
   unrecognized_message_usage _ _ _ _ _ (by decide) (by decide)⟩

/-- In a trace that starts with a header line and the pretty-printed body
of the message handed to the dispatcher, any POST at position `j` is
preceded by the printed body of that very request. -/
lemma post_preceded_by_print (a : String) (M : Json) (token : Option String)
    (resolve : Except Error String) (post : HttpRequest → HttpResponse)
    (j : Nat) (req : HttpRequest)
    (hj : (Event.print a :: Event.print (json_dumps_indent2 M) ::
      (_send_fcm_message M token resolve post).1).get? j =
      some (Event.httpPost req)) :
    ∃ i, i < j ∧ (Event.print a :: Event.print (json_dumps_indent2 M) ::
      (_send_fcm_message M token resolve post).1).get? i =
      some (Event.print (json_dumps_indent2 req.body)) := by
  match j, hj with
  | 0, hj => simp at hj
  | 1, hj => simp at hj
  | n + 2, hj =>
      rw [List.get?_cons_succ, List.get?_cons_succ] at hj
      have hbody := send_post_body M token resolve post req (List.get?_mem hj)
      refine ⟨1, by omega, ?_⟩
      simp [hbody]

/-- C9: for a recognized `--message` value, the pretty-printed (2-space
indent) request body is printed to standard output strictly before the
HTTP POST: any POST at trace position `j` has its body's printout at some
earlier position `i`. -/
theorem body_printed_before_post (args : Args) (resolve : Except Error String)
    (post : HttpRequest → HttpResponse) (j : Nat) (req : HttpRequest)
    (hm : args.message = some "common-message" ∨
      args.message = some "override-message")
    (hj : (Messaging.main args resolve post).1.get? j =
      some (Event.httpPost req)) :
    ∃ i, i < j ∧ (Messaging.main args resolve post).1.get? i =
      some (Event.print (json_dumps_indent2 req.body)) := by
  rcases hm with hm | hm
  · have hmain : (Messaging.main args resolve post).1 =
        Event.print "FCM request body for message using common notification object:" ::
        Event.print (json_dumps_indent2
          (_build_common_message args.token (!truthy args.use_http))) ::
        (_send_fcm_message
          (_build_common_message args.token (!truthy args.use_http))
          args.use_http resolve post).1 := by
      simp [Messaging.main, hm]
    rw [hmain] at hj ⊢
    exact post_preceded_by_print _ _ _ _ _ _ _ hj
  · cases hb : _build_override_message args.token (!truthy args.use_http) with
    | error e =>
        have hmain : (Messaging.main args resolve post).1 = [] := by
          simp [Messaging.main, hm, hb]
        rw [hmain] at hj
        simp at hj
    | ok m =>
        have hmain : (Messaging.main args resolve post).1 =
            Event.print "FCM request body for override message:" ::
            Event.print (json_dumps_indent2 m) ::
            (_send_fcm_message m args.use_http resolve post).1 := by
          simp [Messaging.main, hm, hb]
        rw [hmain] at hj ⊢
        exact post_preceded_by_print _ _ _ _ _ _ _ hj

/-- Witness for C9: a v1 common-message run POSTs at position 3, with the
body printed at position 1. -/
theorem body_printed_before_post_witness :
    ((⟨some "common-message", none, some "news"⟩ : Args).message =
        some "common-message" ∨
      (⟨some "common-message", none, some "news"⟩ : Args).message =
        some "override-message") ∧
    (Messaging.main ⟨some "common-message", none, some "news"⟩
        (Except.ok "t") (fun _ => { status_code := 200, text := "ok" })).1.get? 3 =
      some (Event.httpPost ⟨FCM_URL, "Bearer " ++ "t",
        "application/json; UTF-8",
        _build_common_message (some "news") true⟩) ∧
    (∃ i, i < 3 ∧
      (Messaging.main ⟨some "common-message", none, some "news"⟩
          (Except.ok "t") (fun _ => { status_code := 200, text := "ok" })).1.get? i =
        some (Event.print (json_dumps_indent2
          (HttpRequest.body ⟨FCM_URL, "Bearer " ++ "t",
            "application/json; UTF-8",
            _build_common_message (some "news") true⟩)))) :=
  ⟨Or.inl rfl, rfl,
   body_printed_before_post _ _ _ 3 _ (Or.inl rfl) rfl⟩

/-- Witness for C10 at concrete inputs. -/
theorem builders_deterministic_witness :
    (some "news" : Option String) = some "news" ∧ true = true ∧
    (_build_common_message (some "news") true =
        _build_common_message (some "news") true ∧
      _build_override_message (some "news") true =
        _build_override_message (some "news") true) :=
  ⟨rfl, rfl, builders_deterministic (some "news") (some "news") true true rfl rfl⟩
